import Mathlib

/-!
Shallow embedding of the PWA pantry manager (felizEsteban/PWA_PFINAL):
the expiry utilities of src/js/utils.js and the service worker sw.js
(cache strategies, install, activate, message handling), with theorems
checking the specification claims against them.
-/

namespace Despensa

/-! ### utils.js : expiry-date utilities -/

/-- A JavaScript number that may be NaN.  `new Date(badString)` is an
Invalid Date whose time value is NaN; subtraction and `Math.ceil` keep
NaN, so `getDaysUntilExpiry` can return NaN. -/
inductive JSNum where
  | num (n : Int)
  | nan
  deriving DecidableEq

/-- JavaScript `x < m` where `x` may be NaN: every comparison with NaN is false. -/
def JSNum.jlt : JSNum → Int → Bool
  | .num n, m => decide (n < m)
  | .nan, _ => false

/-- JavaScript `x === m` where `x` may be NaN: NaN is equal to nothing. -/
def JSNum.jeq : JSNum → Int → Bool
  | .num n, m => decide (n = m)
  | .nan, _ => false

/-- JavaScript `x <= m` where `x` may be NaN. -/
def JSNum.jle : JSNum → Int → Bool
  | .num n, m => decide (n ≤ m)
  | .nan, _ => false

/-- JavaScript `Math.abs`, NaN-preserving. -/
def JSNum.jabs : JSNum → JSNum
  | .num n => .num |n|
  | .nan => .nan

/-- String rendering of a JavaScript number as template literals do. -/
def JSNum.jstr : JSNum → String
  | .num n => toString n
  | .nan => "NaN"

/-- The `expiryDate` argument of `getDaysUntilExpiry` as JavaScript sees it:
a falsy value (null / undefined / empty string), a string or Date that
parses to a concrete calendar day, or a non-empty string that `new Date`
cannot parse (an Invalid Date, time value NaN).  Midnight-normalized
dates are modelled as calendar-day indices: for midnight-aligned values
`Math.ceil((expiry - today) / 86400000)` is the exact day difference. -/
inductive DateInput where
  | absent
  | valid (day : Int)
  | malformed
  deriving DecidableEq

/-- Embedding of `getDaysUntilExpiry(expiryDate)`; `today` is the day index
of the current date at midnight.  Returns `none` for the JS `null` return,
`some .nan` when the date was unparseable (NaN propagates through
`setHours`, the subtraction and `Math.ceil`). -/
def getDaysUntilExpiry (expiryDate : DateInput) (today : Int) : Option JSNum :=
  match expiryDate with
  | .absent => none
  | .valid day => some (.num (day - today))
  | .malformed => some .nan

/-- The record returned by `getExpiryStatus`: `{ status, label, class }`. -/
structure ExpiryStatus where
  status : String
  label : String
  cssClass : String
  deriving DecidableEq

/-- Embedding of `getExpiryStatus(expiryDate)`, branch for branch:
`days === null`, then `days < 0`, `days === 0`, `days <= 7`, else ok. -/
def getExpiryStatus (expiryDate : DateInput) (today : Int) : ExpiryStatus :=
  match getDaysUntilExpiry expiryDate today with
  | none =>
      { status := "unknown", label := "Sin fecha", cssClass := "" }
  | some days =>
      if days.jlt 0 then
        { status := "expired"
          label := "Caducado hace " ++ days.jabs.jstr ++ " día(s)"
          cssClass := "product-card--expired" }
      else if days.jeq 0 then
        { status := "expired", label := "¡Caduca hoy!"
          cssClass := "product-card--expired" }
      else if days.jle 7 then
        { status := "soon", label := "Caduca en " ++ days.jstr ++ " día(s)"
          cssClass := "product-card--soon" }
      else
        { status := "ok", label := "Caduca en " ++ days.jstr ++ " días"
          cssClass := "product-card--ok" }

/-- A pantry record as `sortByExpiry` sees it: the comparator inspects only
`expiryDate` (where `none` is an absent / falsy value); `id` stands for all
the other fields and identifies the record. -/
structure Product where
  id : Nat
  expiryDate : Option Int
  deriving DecidableEq

/-- The comparator passed to `Array.prototype.sort` by `sortByExpiry`:
records without a date compare after everything, two dated records compare
by date difference, reversed when `order` is not the string asc. -/
def sortCmp (order : String) (a b : Product) : Int :=
  match a.expiryDate, b.expiryDate with
  | none, none => 0
  | none, some _ => 1
  | some _, none => -1
  | some dateA, some dateB => if order = "asc" then dateA - dateB else dateB - dateA

/-- Embedding of `sortByExpiry(products, order)`.  `Array.prototype.sort` is
stable and `sortCmp` is a consistent comparator (comparison by key), so the
call is modelled by insertion sort with respect to `sortCmp order a b ≤ 0`,
a stable sorting algorithm. -/
def sortByExpiry (products : List Product) (order : String) : List Product :=
  List.insertionSort (fun a b => sortCmp order a b ≤ 0) products

/-! ### sw.js : service worker -/

def CACHE_NAME : String := "despensa-v1"

def STATIC_CACHE : String := "despensa-static-v1"

def DYNAMIC_CACHE : String := "despensa-dynamic-v1"

/-- The App Shell manifest `STATIC_ASSETS`. -/
def STATIC_ASSETS : List String :=
  ["/", "/index.html", "/manifest.json", "/src/css/main.css",
   "/src/css/variables.css", "/src/css/styles.css", "/src/js/app.js",
   "/src/js/db.js", "/src/js/utils.js", "/src/js/notifications.js",
   "/src/assets/icons/icon-192x192.png", "/src/assets/icons/icon-512x512.png"]

def OFFLINE_PAGE : String := "/index.html"

/-- A Response: its HTTP status and body.  `ok` below is the JS
`Response.ok` (status in the 2xx class). -/
structure JsResponse where
  status : Nat
  body : String
  deriving DecidableEq

def JsResponse.ok (r : JsResponse) : Bool := 200 ≤ r.status && r.status < 300

/-- One cache partition: request paths mapped to responses.  `put`
prepends and `match` takes the first hit, so a later `put` overwrites. -/
abbrev Store := List (String × JsResponse)

def storeMatch : Store → String → Option JsResponse
  | [], _ => none
  | (p, r) :: rest, q => if p = q then some r else storeMatch rest q

def storePut (s : Store) (p : String) (r : JsResponse) : Store := (p, r) :: s

/-- The CacheStorage of the worker: the static partition (STATIC_CACHE)
and the dynamic partition (DYNAMIC_CACHE). -/
structure CacheState where
  staticCache : Store
  dynCache : Store
  deriving DecidableEq

/-- Embedding of `caches.match(request)`: searches every partition, the
static one (created first, at install) before the dynamic one. -/
def cachesMatch (st : CacheState) (p : String) : Option JsResponse :=
  match storeMatch st.staticCache p with
  | some r => some r
  | none => storeMatch st.dynCache p

/-- Embedding of `cache.put` into the DYNAMIC_CACHE partition. -/
def putDynamic (st : CacheState) (p : String) (r : JsResponse) : CacheState :=
  { st with dynCache := storePut st.dynCache p r }

/-- The network as the strategies observe it: `fetch(p)` either resolves
with a response (`some`, also for non-2xx statuses) or rejects (`none`,
a network error caught by the catch branches). -/
abbrev Network := String → Option JsResponse

/-- Embedding of `cacheFirst(request)`: answer from any cache, else fetch
(writing an ok response to the dynamic partition), else
`caches.match(OFFLINE_PAGE)`.  Returns the resolved value (`none` models
resolving with undefined) and the cache state after all writes settle. -/
def cacheFirst (st : CacheState) (net : Network) (request : String) :
    Option JsResponse × CacheState :=
  match cachesMatch st request with
  | some cachedResponse => (some cachedResponse, st)
  | none =>
    match net request with
    | some networkResponse =>
        (some networkResponse,
         if networkResponse.ok then putDynamic st request networkResponse else st)
    | none => (cachesMatch st OFFLINE_PAGE, st)

/-- Embedding of `networkFirst(request)`: fetch (writing an ok response to
the dynamic partition), on rejection any cached value, else
`caches.match(OFFLINE_PAGE)`. -/
def networkFirst (st : CacheState) (net : Network) (request : String) :
    Option JsResponse × CacheState :=
  match net request with
  | some networkResponse =>
      (some networkResponse,
       if networkResponse.ok then putDynamic st request networkResponse else st)
  | none =>
    match cachesMatch st request with
    | some cachedResponse => (some cachedResponse, st)
    | none => (cachesMatch st OFFLINE_PAGE, st)

/-- Embedding of `staleWhileRevalidate(request)`: the cached value is read
from the DYNAMIC_CACHE partition only; the background fetch writes an ok
response there; the caller gets the cached value when present
(`cachedResponse || fetchPromise`), otherwise the settled fetch promise:
the network response on success, or — through the catch handler that
returns `cachedResponse` — undefined on rejection. -/
def staleWhileRevalidate (st : CacheState) (net : Network) (request : String) :
    Option JsResponse × CacheState :=
  let cachedResponse := storeMatch st.dynCache request
  let newState :=
    match net request with
    | some networkResponse =>
        if networkResponse.ok then putDynamic st request networkResponse else st
    | none => st
  let result :=
    match cachedResponse with
    | some cached => some cached
    | none =>
        match net request with
        | some networkResponse => some networkResponse
        | none => cachedResponse
  (result, newState)

/-- JS `s.endsWith(suffix)`, expressed on the character lists of the two
strings. -/
def strEndsWith (s suffix : String) : Bool :=
  List.isSuffixOf suffix.data s.data

/-- The file extensions of `isStaticAsset`. -/
def staticExtensions : List String :=
  [".css", ".js", ".png", ".jpg", ".jpeg", ".webp", ".svg", ".ico", ".woff", ".woff2"]

/-- Embedding of `isStaticAsset(pathname)`. -/
def isStaticAsset (pathname : String) : Bool :=
  staticExtensions.any fun ext => strEndsWith pathname ext

/-- Embedding of `isHTMLPage(pathname)`. -/
def isHTMLPage (pathname : String) : Bool :=
  strEndsWith pathname ".html" || pathname == "/"

/-- An intercepted request as the fetch listener inspects it. -/
structure Request where
  path : String
  method : String
  sameOrigin : Bool
  deriving DecidableEq

/-- Embedding of the fetch event listener: `none` when the request is not
handled (cross-origin or non-GET), otherwise the outcome of the strategy
chosen by `isStaticAsset` / `isHTMLPage`. -/
def handleFetch (st : CacheState) (net : Network) (req : Request) :
    Option (Option JsResponse × CacheState) :=
  if !req.sameOrigin then none
  else if req.method != "GET" then none
  else if isStaticAsset req.path then some (cacheFirst st net req.path)
  else if isHTMLPage req.path then some (staleWhileRevalidate st net req.path)
  else some (networkFirst st net req.path)

/-- Embedding of `cache.addAll(assets)`: atomic — it resolves with every
entry exactly when every asset fetches successfully with an ok status,
and rejects adding nothing otherwise. -/
def addAllResults (net : Network) : List String → Option Store
  | [] => some []
  | a :: rest =>
    match net a with
    | some r =>
        if r.ok then (addAllResults net rest).map fun l => (a, r) :: l
        else none
    | none => none

/-- Outcome of the install step: the static partition it leaves behind,
whether the promise passed to `event.waitUntil` rejected, and whether
`self.skipWaiting()` was reached. -/
structure InstallOutcome where
  staticCache : Store
  promiseRejected : Bool
  skipWaitingCalled : Bool
  deriving DecidableEq

/-- Embedding of the install listener: `caches.open(STATIC_CACHE)` then
`cache.addAll(STATIC_ASSETS)` then `self.skipWaiting()`, with a final
`.catch` that only logs — so on an addAll rejection the chain skips
`skipWaiting`, keeps no entries, and resolves anyway. -/
def installStep (net : Network) : InstallOutcome :=
  match addAllResults net STATIC_ASSETS with
  | some entries =>
      { staticCache := entries, promiseRejected := false, skipWaitingCalled := true }
  | none =>
      { staticCache := [], promiseRejected := false, skipWaitingCalled := false }

/-- The names the activate listener deletes: its filter keeps exactly the
names different from both current partitions. -/
def activateDeleted (cacheNames : List String) : List String :=
  cacheNames.filter fun name => name != STATIC_CACHE && name != DYNAMIC_CACHE

/-- The names that survive activation: those the filter of the activate
listener does not pass to `caches.delete`. -/
def activateSurvivors (cacheNames : List String) : List String :=
  cacheNames.filter fun name => !(name != STATIC_CACHE && name != DYNAMIC_CACHE)

/-- The data of a control message once it is an object: `action` is `none`
when the field is absent (undefined). -/
structure MessageData where
  action : Option String
  deriving DecidableEq

/-- The error raised by reading a property of null / undefined. -/
inductive JsError where
  | typeError
  deriving DecidableEq

/-- The observable effect of the message listener. -/
structure MessageEffect where
  skipWaitingCalled : Bool
  cacheNames : List String
  deriving DecidableEq

/-- Embedding of the message listener: it reads `event.data.action`
unconditionally, so a null / undefined `data` raises a TypeError; the
action skipWaiting calls `self.skipWaiting()`, the action clearCache
deletes every cache, anything else does nothing. -/
def handleMessage (data : Option MessageData) (cacheNames : List String) :
    Except JsError MessageEffect :=
  match data with
  | none => .error .typeError
  | some d =>
      let sw := d.action == some "skipWaiting"
      let names := if d.action == some "clearCache" then [] else cacheNames
      .ok { skipWaitingCalled := sw, cacheNames := names }

/-! ### Helper lemmas -/

theorem status_of_valid (D today : Int) :
    (getExpiryStatus (.valid D) today).status =
      if D - today < 0 then "expired"
      else if D - today = 0 then "expired"
      else if D - today ≤ 7 then "soon" else "ok" := by
  simp [getExpiryStatus, getDaysUntilExpiry, JSNum.jlt, JSNum.jeq, JSNum.jle,
    apply_ite ExpiryStatus.status]

theorem filter_orderedInsert_of_pos {α : Type} (r : α → α → Prop) [DecidableRel r]
    (q : α → Bool) (x : α) (hx : q x = true) (hq : ∀ y, q y = true → r x y) :
    ∀ l : List α, (l.orderedInsert r x).filter q = x :: l.filter q := by
  intro l
  induction l with
  | nil => simp [List.orderedInsert, hx]
  | cons y l ih =>
    by_cases hr : r x y
    · simp [List.orderedInsert, hr, List.filter_cons, hx]
    · have hy : q y = false := by
        cases hqy : q y
        · rfl
        · exact absurd (hq y hqy) hr
      simp [List.orderedInsert, hr, List.filter_cons, hy, ih]

theorem filter_orderedInsert_of_neg {α : Type} (r : α → α → Prop) [DecidableRel r]
    (q : α → Bool) (x : α) (hx : q x = false) :
    ∀ l : List α, (l.orderedInsert r x).filter q = l.filter q := by
  intro l
  induction l with
  | nil => simp [List.orderedInsert, hx]
  | cons y l ih =>
    by_cases hr : r x y
    · simp [List.orderedInsert, hr, List.filter_cons, hx]
    · simp [List.orderedInsert, hr, List.filter_cons, ih]

/-- A stable sorting algorithm leaves each equivalence bucket of the
comparator as a subsequence exactly as it was in the input. -/
theorem filter_insertionSort_eq {α : Type} (r : α → α → Prop) [DecidableRel r]
    (q : α → Bool) (hq : ∀ a b, q a = true → q b = true → r a b) :
    ∀ l : List α, (l.insertionSort r).filter q = l.filter q := by
  intro l
  induction l with
  | nil => rfl
  | cons x l ih =>
    cases hx : q x
    · rw [List.insertionSort, filter_orderedInsert_of_neg r q x hx, ih]
      simp [List.filter_cons, hx]
    · rw [List.insertionSort,
        filter_orderedInsert_of_pos r q x hx (fun y hy => hq x y hx hy), ih]
      simp [List.filter_cons, hx]

instance sortCmpIsTotal (order : String) :
    IsTotal Product (fun a b => sortCmp order a b ≤ 0) := by
  constructor
  intro a b
  rcases a with ⟨ia, _ | da⟩ <;> rcases b with ⟨ib, _ | db⟩ <;>
    simp only [sortCmp] <;> (try split_ifs) <;> omega

instance sortCmpIsTrans (order : String) :
    IsTrans Product (fun a b => sortCmp order a b ≤ 0) := by
  constructor
  intro a b c hab hbc
  rcases a with ⟨ia, _ | da⟩ <;> rcases b with ⟨ib, _ | db⟩ <;>
    rcases c with ⟨ic, _ | dc⟩ <;>
    simp only [sortCmp] at * <;> (try split_ifs at *) <;> omega

/-! ### Claims -/

/-- C3: for an expiry date on calendar day D and reference day today (both
midnight-normalized), daysRemaining is D - today; classification yields
expired with daysRemaining = 0 when D equals today, expired with negative
daysRemaining when D is before today, soon when 1 ≤ daysRemaining ≤ 7, and
ok (Fresh) when daysRemaining > 7.  The branches are mutually exclusive, so
first-match evaluation yields exactly these outcomes. -/
theorem c3_expiry_classification (D today : Int) :
    getDaysUntilExpiry (.valid D) today = some (.num (D - today))
  ∧ (D = today →
      (getExpiryStatus (.valid D) today).status = "expired" ∧ D - today = 0)
  ∧ (D < today →
      (getExpiryStatus (.valid D) today).status = "expired" ∧ D - today < 0)
  ∧ (1 ≤ D - today ∧ D - today ≤ 7 →
      (getExpiryStatus (.valid D) today).status = "soon")
  ∧ (7 < D - today → (getExpiryStatus (.valid D) today).status = "ok") := by
  refine ⟨rfl, fun h => ⟨?_, by omega⟩, fun h => ⟨?_, by omega⟩,
    fun h => ?_, fun h => ?_⟩ <;>
      rw [status_of_valid] <;> split_ifs <;> first | rfl | (exfalso; omega)

/-- C3 witness: the four classification rows at concrete days. -/
theorem c3_expiry_classification_witness :
    (getExpiryStatus (.valid 10) 10).status = "expired"
  ∧ (getExpiryStatus (.valid 3) 10).status = "expired"
  ∧ (getExpiryStatus (.valid 13) 10).status = "soon"
  ∧ (getExpiryStatus (.valid 20) 10).status = "ok" :=
  ⟨((c3_expiry_classification 10 10).2.1 rfl).1,
   ((c3_expiry_classification 3 10).2.2.1 (by omega)).1,
   (c3_expiry_classification 13 10).2.2.2.1 (by omega),
   (c3_expiry_classification 20 10).2.2.2.2 (by omega)⟩

/-- C5 counterexample: a malformed, non-empty date string is not treated as
an absent date: classification returns the ok (Fresh) kind, not unknown. -/
theorem c5_counterexample :
    (getExpiryStatus .malformed 0).status = "ok"
  ∧ (getExpiryStatus .malformed 0).status ≠ "unknown" := by decide

/-- C5 (amended): classification never raises (it is a total function), and
an absent or empty date yields unknown with the Sin fecha label; but a
malformed, unparseable date gives NaN daysRemaining, which fails every
comparison and falls through to the ok (Fresh) branch with a NaN label. -/
theorem c5_amended_malformed_dates (today : Int) :
    getExpiryStatus .malformed today
      = { status := "ok", label := "Caduca en NaN días"
          cssClass := "product-card--ok" }
  ∧ getExpiryStatus .absent today
      = { status := "unknown", label := "Sin fecha", cssClass := "" } :=
  ⟨rfl, rfl⟩

/-- C8: for every record list and direction, sortByExpiry puts every record
with an absent expiryDate after all dated records, and it is stable: the
records of any one bucket (a fixed date, or undated) appear in exactly
their input order. -/
theorem c8_sortByExpiry_undated_last_and_stable (l : List Product) (order : String) :
    (sortByExpiry l order).Pairwise
      (fun a b => a.expiryDate = none → b.expiryDate = none)
  ∧ ∀ k : Option Int,
      (sortByExpiry l order).filter (fun p => p.expiryDate == k)
        = l.filter (fun p => p.expiryDate == k) := by
  constructor
  · have hs := List.sorted_insertionSort (fun a b => sortCmp order a b ≤ 0) l
    refine List.Pairwise.imp ?_ hs
    intro a b hab hna
    rcases hb : b.expiryDate with _ | db
    · rfl
    · exfalso
      simp only [sortCmp, hna, hb] at hab
      omega
  · intro k
    refine filter_insertionSort_eq _ _ (fun a b ha hb => ?_) l
    have ha' : a.expiryDate = k := by simpa using ha
    have hb' : b.expiryDate = k := by simpa using hb
    rcases k with _ | d <;> simp only [sortCmp, ha', hb'] <;> (try split_ifs) <;> omega

/-- C7: activation deletes exactly the partitions whose name differs from
both current partition names, so only the current static and dynamic
partitions survive; on the example set with two stale versioned partitions
precisely the two current ones remain. -/
theorem c7_activation_purge :
    (∀ (cacheNames : List String) (n : String),
        n ∈ activateSurvivors cacheNames ↔
          n ∈ cacheNames ∧ (n = STATIC_CACHE ∨ n = DYNAMIC_CACHE))
  ∧ (∀ (cacheNames : List String) (n : String),
        n ∈ activateDeleted cacheNames ↔
          n ∈ cacheNames ∧ n ≠ STATIC_CACHE ∧ n ≠ DYNAMIC_CACHE)
  ∧ activateSurvivors
      ["despensa-static-v0", "despensa-dynamic-v0", STATIC_CACHE, DYNAMIC_CACHE]
      = [STATIC_CACHE, DYNAMIC_CACHE] := by
  refine ⟨fun names n => ?_, fun names n => ?_, by decide⟩
  · simp [activateSurvivors, List.mem_filter]
    try tauto
  · simp [activateDeleted, List.mem_filter]

/-- C10: the message listener reads data.action unconditionally, so a
message with null or undefined data raises a TypeError; a message whose
action is neither skipWaiting nor clearCache leaves the lifecycle and
every cache untouched. -/
theorem c10_message_action_read :
    (∀ cacheNames : List String, handleMessage none cacheNames = .error .typeError)
  ∧ ∀ (d : MessageData) (cacheNames : List String),
      d.action ≠ some "skipWaiting" → d.action ≠ some "clearCache" →
        handleMessage (some d) cacheNames
          = .ok { skipWaitingCalled := false, cacheNames := cacheNames } := by
  refine ⟨fun _ => rfl, fun d names h1 h2 => ?_⟩
  simp [handleMessage, h1, h2]

/-- C10 witness: a null message errors; an unknown action is a no-op. -/
theorem c10_message_action_read_witness :
    handleMessage none ["despensa-static-v1"] = .error .typeError
  ∧ handleMessage (some { action := some "ping" }) ["despensa-static-v1"]
      = .ok { skipWaitingCalled := false, cacheNames := ["despensa-static-v1"] } :=
  ⟨c10_message_action_read.1 ["despensa-static-v1"],
   c10_message_action_read.2 { action := some "ping" } ["despensa-static-v1"]
     (by decide) (by decide)⟩

/-- C1 counterexample: an intercepted same-origin GET for the page path /
is routed to staleWhileRevalidate; with no cached entry matching the
request and a rejecting network it resolves with undefined (none), even
though the offline-fallback resource sits in the static partition. -/
theorem c1_counterexample :
    handleFetch
        { staticCache := [("/index.html", { status := 200, body := "offline shell" })]
          dynCache := [] }
        (fun _ => none) { path := "/", method := "GET", sameOrigin := true }
      = some (none,
          { staticCache := [("/index.html", { status := 200, body := "offline shell" })]
            dynCache := [] })
  ∧ cachesMatch
        { staticCache := [("/index.html", { status := 200, body := "offline shell" })]
          dynCache := [] } OFFLINE_PAGE
      = some { status := 200, body := "offline shell" } := by decide

/-- C1 (amended): with no cached entry matching the request and a rejecting
network, cacheFirst and networkFirst resolve with whatever
`caches.match(OFFLINE_PAGE)` yields (the cached offline page when present,
undefined when absent), while staleWhileRevalidate resolves with undefined:
it has no offline fallback. -/
theorem c1_amended_offline_fallback (st : CacheState) (net : Network) (p : String)
    (hmiss : cachesMatch st p = none) (hnet : net p = none) :
    (cacheFirst st net p).fst = cachesMatch st OFFLINE_PAGE
  ∧ (networkFirst st net p).fst = cachesMatch st OFFLINE_PAGE
  ∧ (staleWhileRevalidate st net p).fst = none := by
  have hdyn : storeMatch st.dynCache p = none := by
    unfold cachesMatch at hmiss
    rcases h : storeMatch st.staticCache p with _ | r
    · rw [h] at hmiss
      exact hmiss
    · rw [h] at hmiss
      cases hmiss
  exact ⟨by simp [cacheFirst, hmiss, hnet], by simp [networkFirst, hmiss, hnet],
    by simp [staleWhileRevalidate, hdyn, hnet]⟩

/-- C1 witness: the amended statement at a concrete state whose static
partition holds the offline page, for a request that misses every cache. -/
theorem c1_amended_offline_fallback_witness :
    (cacheFirst
        { staticCache := [("/index.html", { status := 200, body := "offline shell" })]
          dynCache := [] } (fun _ => none) "/app").fst
      = cachesMatch
          { staticCache := [("/index.html", { status := 200, body := "offline shell" })]
            dynCache := [] } OFFLINE_PAGE
  ∧ (networkFirst
        { staticCache := [("/index.html", { status := 200, body := "offline shell" })]
          dynCache := [] } (fun _ => none) "/app").fst
      = cachesMatch
          { staticCache := [("/index.html", { status := 200, body := "offline shell" })]
            dynCache := [] } OFFLINE_PAGE
  ∧ (staleWhileRevalidate
        { staticCache := [("/index.html", { status := 200, body := "offline shell" })]
          dynCache := [] } (fun _ => none) "/app").fst = none :=
  c1_amended_offline_fallback
    { staticCache := [("/index.html", { status := 200, body := "offline shell" })]
      dynCache := [] } (fun _ => none) "/app" (by decide) rfl

/-- C2 counterexample: with a network on which the manifest entry
/manifest.json rejects, the install step keeps no static entry and skips
skipWaiting, but its promise does not reject: the catch handler swallowed
the error, so the lifecycle transition is not blocked. -/
theorem c2_counterexample :
    installStep
        (fun p => if p = "/manifest.json" then none
          else some { status := 200, body := "file" })
      = { staticCache := [], promiseRejected := false, skipWaitingCalled := false } := by
  decide

theorem addAllResults_none_of_fail (net : Network) (a : String)
    (hfail : net a = none) :
    ∀ assets : List String, a ∈ assets → addAllResults net assets = none := by
  intro assets
  induction assets with
  | nil => intro h; cases h
  | cons x rest ih =>
    intro ha
    rcases List.mem_cons.mp ha with rfl | hmem
    · simp [addAllResults, hfail]
    · by_cases hr : ∃ r, net x = some r
      · rcases hr with ⟨r, hx⟩
        by_cases hok : r.ok = true
        · simp [addAllResults, hx, hok, ih hmem]
        · simp [addAllResults, hx, hok]
      · rcases hx : net x with _ | r
        · simp [addAllResults, hx]
        · exact absurd ⟨r, hx⟩ hr

/-- C2 (amended): failure of any manifest fetch fails the whole addAll, so
no partial static partition is kept and skipWaiting is never reached; but
the error IS swallowed by the trailing catch handler: the install promise
resolves instead of rejecting, so it does not block the transition to the
next lifecycle state. -/
theorem c2_amended_install_swallows_error (net : Network) (a : String)
    (ha : a ∈ STATIC_ASSETS) (hfail : net a = none) :
    (installStep net).staticCache = []
  ∧ (installStep net).skipWaitingCalled = false
  ∧ (installStep net).promiseRejected = false := by
  have h := addAllResults_none_of_fail net a hfail STATIC_ASSETS ha
  simp [installStep, h]

/-- C2 witness: the amended statement for a network failing exactly on the
manifest entry /manifest.json. -/
theorem c2_amended_install_swallows_error_witness :
    (installStep (fun p => if p = "/manifest.json" then none
        else some { status := 200, body := "file" })).staticCache = []
  ∧ (installStep (fun p => if p = "/manifest.json" then none
        else some { status := 200, body := "file" })).skipWaitingCalled = false
  ∧ (installStep (fun p => if p = "/manifest.json" then none
        else some { status := 200, body := "file" })).promiseRejected = false :=
  c2_amended_install_swallows_error
    (fun p => if p = "/manifest.json" then none
      else some { status := 200, body := "file" })
    "/manifest.json" (by decide) (by decide)

/-- C4 counterexample: /index.html is not a static asset for the router;
with the cached shell pre-populated in the static partition and a network
returning a different fresh body, the intercepted GET resolves with the
fresh network body (the network IS invoked and its ok response is written
to the dynamic partition), not with the cached entry. -/
theorem c4_counterexample :
    isStaticAsset "/index.html" = false
  ∧ handleFetch
        { staticCache := [("/index.html", { status := 200, body := "cached shell" })]
          dynCache := [] }
        (fun _ => some { status := 200, body := "fresh body" })
        { path := "/index.html", method := "GET", sameOrigin := true }
      = some (some { status := 200, body := "fresh body" },
          { staticCache := [("/index.html", { status := 200, body := "cached shell" })]
            dynCache := [("/index.html", { status := 200, body := "fresh body" })] })
  ∧ (some { status := 200, body := "fresh body" } : Option JsResponse)
      ≠ some { status := 200, body := "cached shell" } := by decide

/-- C4 (amended): /index.html matches isHTMLPage and not isStaticAsset, so
the router hands it to staleWhileRevalidate, which consults only the
dynamic partition and always starts a network fetch; a pre-populated
static-partition entry is never consulted: with no dynamic entry the
caller receives the network response, which (when ok) is written to the
dynamic partition. -/
theorem c4_amended_index_routed_to_swr (st : CacheState) (net : Network)
    (r : JsResponse) (hdyn : storeMatch st.dynCache "/index.html" = none)
    (hnet : net "/index.html" = some r) (hok : r.ok = true) :
    isStaticAsset "/index.html" = false
  ∧ isHTMLPage "/index.html" = true
  ∧ handleFetch st net { path := "/index.html", method := "GET", sameOrigin := true }
      = some (some r, putDynamic st "/index.html" r) := by
  have h1 : isStaticAsset "/index.html" = false := by decide
  have h2 : isHTMLPage "/index.html" = true := by decide
  refine ⟨h1, h2, ?_⟩
  simp [handleFetch, staleWhileRevalidate, h1, h2, hdyn, hnet, hok]

/-- C4 witness: the amended statement at the concrete state of the
counterexample. -/
theorem c4_amended_index_routed_to_swr_witness :
    isStaticAsset "/index.html" = false
  ∧ isHTMLPage "/index.html" = true
  ∧ handleFetch
        { staticCache := [("/index.html", { status := 200, body := "cached shell" })]
          dynCache := [] }
        (fun _ => some { status := 200, body := "fresh body" })
        { path := "/index.html", method := "GET", sameOrigin := true }
      = some (some { status := 200, body := "fresh body" },
          putDynamic
            { staticCache := [("/index.html", { status := 200, body := "cached shell" })]
              dynCache := [] }
            "/index.html" { status := 200, body := "fresh body" }) :=
  c4_amended_index_routed_to_swr
    { staticCache := [("/index.html", { status := 200, body := "cached shell" })]
      dynCache := [] }
    (fun _ => some { status := 200, body := "fresh body" })
    { status := 200, body := "fresh body" } rfl rfl (by decide)

/-- C6: under staleWhileRevalidate with a stale dynamic entry and a network
returning a different successful body, the caller gets the stale body; the
background fetch overwrites the dynamic entry with the fresh response, so
a subsequent call (after the fetch settled, under any network) returns the
fresh body; and on a rejecting network the cached value is returned and
the cache is left exactly as it was. -/
theorem c6_swr_stale_then_revalidate (st : CacheState) (net net2 : Network)
    (p : String) (stale fresh : JsResponse) (netFail : Network)
    (hcached : storeMatch st.dynCache p = some stale)
    (hnet : net p = some fresh) (hok : fresh.ok = true)
    (hfail : netFail p = none) :
    (staleWhileRevalidate st net p).fst = some stale
  ∧ storeMatch (staleWhileRevalidate st net p).snd.dynCache p = some fresh
  ∧ (staleWhileRevalidate (staleWhileRevalidate st net p).snd net2 p).fst
      = some fresh
  ∧ (staleWhileRevalidate st netFail p).fst = some stale
  ∧ (staleWhileRevalidate st netFail p).snd = st := by
  have hsnd : (staleWhileRevalidate st net p).snd = putDynamic st p fresh := by
    simp [staleWhileRevalidate, hnet, hok]
  have hm : storeMatch (putDynamic st p fresh).dynCache p = some fresh := by
    simp [putDynamic, storePut, storeMatch]
  refine ⟨by simp [staleWhileRevalidate, hcached], ?_, ?_,
    by simp [staleWhileRevalidate, hcached], by simp [staleWhileRevalidate, hfail]⟩
  · rw [hsnd]
    exact hm
  · rw [hsnd]
    simp [staleWhileRevalidate, hm]

/-- C6 witness: a stale root page, a fresh successful body, then a second
call after the update, and the failing-network branch. -/
theorem c6_swr_stale_then_revalidate_witness :
    (staleWhileRevalidate { staticCache := [], dynCache := [("/", { status := 200, body := "old" })] }
        (fun _ => some { status := 200, body := "new" }) "/").fst
      = some { status := 200, body := "old" }
  ∧ storeMatch (staleWhileRevalidate { staticCache := [], dynCache := [("/", { status := 200, body := "old" })] }
        (fun _ => some { status := 200, body := "new" }) "/").snd.dynCache "/"
      = some { status := 200, body := "new" }
  ∧ (staleWhileRevalidate (staleWhileRevalidate { staticCache := [], dynCache := [("/", { status := 200, body := "old" })] }
        (fun _ => some { status := 200, body := "new" }) "/").snd (fun _ => none) "/").fst
      = some { status := 200, body := "new" }
  ∧ (staleWhileRevalidate { staticCache := [], dynCache := [("/", { status := 200, body := "old" })] }
        (fun _ => none) "/").fst = some { status := 200, body := "old" }
  ∧ (staleWhileRevalidate { staticCache := [], dynCache := [("/", { status := 200, body := "old" })] }
        (fun _ => none) "/").snd
      = { staticCache := [], dynCache := [("/", { status := 200, body := "old" })] } :=
  c6_swr_stale_then_revalidate
    { staticCache := [], dynCache := [("/", { status := 200, body := "old" })] }
    (fun _ => some { status := 200, body := "new" }) (fun _ => none) "/"
    { status := 200, body := "old" } { status := 200, body := "new" }
    (fun _ => none) (by decide) rfl (by decide) rfl

/-- C9 counterexample: under staleWhileRevalidate with a cached entry, a
404 network response is not returned to the caller unchanged — the cached
entry is returned instead. -/
theorem c9_counterexample :
    (staleWhileRevalidate
        { staticCache := [], dynCache := [("/", { status := 200, body := "cached" })] }
        (fun _ => some { status := 404, body := "missing" }) "/").fst
      = some { status := 200, body := "cached" }
  ∧ (staleWhileRevalidate
        { staticCache := [], dynCache := [("/", { status := 200, body := "cached" })] }
        (fun _ => some { status := 404, body := "missing" }) "/").fst
      ≠ some { status := 404, body := "missing" } := by decide

/-- C9 (amended): a network response outside the 2xx class is never written
to any cache partition — each strategy leaves the cache state exactly as
it was; it reaches the caller unchanged in networkFirst always, in
cacheFirst on a cache miss, and in staleWhileRevalidate when the dynamic
partition has no entry; with a cached entry staleWhileRevalidate returns
the cached entry instead. -/
theorem c9_amended_non_ok_never_cached (st : CacheState) (net : Network)
    (p : String) (r : JsResponse) (hnet : net p = some r) (hnotOk : r.ok = false) :
    (cacheFirst st net p).snd = st
  ∧ (networkFirst st net p).snd = st
  ∧ (staleWhileRevalidate st net p).snd = st
  ∧ (networkFirst st net p).fst = some r
  ∧ (cachesMatch st p = none → (cacheFirst st net p).fst = some r)
  ∧ (storeMatch st.dynCache p = none →
      (staleWhileRevalidate st net p).fst = some r) := by
  refine ⟨?_, ?_, ?_, ?_, fun hmiss => ?_, fun hdyn => ?_⟩
  · rcases h : cachesMatch st p with _ | c
    · simp [cacheFirst, h, hnet, hnotOk]
    · simp [cacheFirst, h]
  · simp [networkFirst, hnet, hnotOk]
  · simp [staleWhileRevalidate, hnet, hnotOk]
  · simp [networkFirst, hnet]
  · simp [cacheFirst, hmiss, hnet]
  · simp [staleWhileRevalidate, hdyn, hnet]

/-- C9 witness: the amended statement for a 404 response on empty caches. -/
theorem c9_amended_non_ok_never_cached_witness :
    (cacheFirst { staticCache := [], dynCache := [] }
        (fun _ => some { status := 404, body := "missing" }) "/x").snd
      = { staticCache := [], dynCache := [] }
  ∧ (networkFirst { staticCache := [], dynCache := [] }
        (fun _ => some { status := 404, body := "missing" }) "/x").snd
      = { staticCache := [], dynCache := [] }
  ∧ (staleWhileRevalidate { staticCache := [], dynCache := [] }
        (fun _ => some { status := 404, body := "missing" }) "/x").snd
      = { staticCache := [], dynCache := [] }
  ∧ (networkFirst { staticCache := [], dynCache := [] }
        (fun _ => some { status := 404, body := "missing" }) "/x").fst
      = some { status := 404, body := "missing" }
  ∧ (cachesMatch { staticCache := [], dynCache := [] } "/x" = none →
      (cacheFirst { staticCache := [], dynCache := [] }
          (fun _ => some { status := 404, body := "missing" }) "/x").fst
        = some { status := 404, body := "missing" })
  ∧ (storeMatch ({ staticCache := [], dynCache := [] } : CacheState).dynCache "/x" = none →
      (staleWhileRevalidate { staticCache := [], dynCache := [] }
          (fun _ => some { status := 404, body := "missing" }) "/x").fst
        = some { status := 404, body := "missing" }) :=
  c9_amended_non_ok_never_cached { staticCache := [], dynCache := [] }
    (fun _ => some { status := 404, body := "missing" }) "/x"
    { status := 404, body := "missing" } rfl (by decide)

end Despensa
